import Mathlib

/-!
Shallow embedding of the ride-sharing backend (`app.py`): the SQLAlchemy
models `User`, `Ride`, `RideRequest`, their `to_dict` serializers, the
in-process `RideShareDataStructures` collections, and the request handlers
`register`, `login`, `get_current_user`, `create_ride`, `search_rides`,
`create_ride_request`, `update_request_status`.

The persistent store (the SQLite database) is modelled as lists of rows;
primary-key generation is modelled by explicit `next_*_id` counters.
`datetime.utcnow()` / `datetime.now()` are modelled by a `now : Nat`
parameter passed to each handler that reads the clock.  SQL
`order_by(created_at.desc())` is modelled by `List.insertionSort` with the
newest-first relation, and `ilike('%p%')` by case-insensitive substring
containment.  Werkzeug's `generate_password_hash` / `check_password_hash`
are modelled by an injective tagging function and its matching check.
-/

namespace RideShare

/-- JSON-like values, the payloads handlers return via `jsonify`. -/
inductive JVal where
  | jnull : JVal
  | jstr : String → JVal
  | jint : Int → JVal
  | jobj : List (String × JVal) → JVal
  | jarr : List JVal → JVal

/-- Row of the `users` table (`class User` in `app.py`). -/
structure User where
  id : Nat
  first_name : String
  last_name : String
  email : String
  phone : String
  password_hash : String
  role : String
  rating : Int
  total_rides : Int
  created_at : Nat
deriving DecidableEq, Repr

/-- Row of the `rides` table (`class Ride` in `app.py`). -/
structure Ride where
  id : Nat
  driver_id : Nat
  origin : String
  destination : String
  date : String
  time : String
  available_seats : Int
  price : Int
  vehicle_type : String
  notes : String
  status : String
  created_at : Nat
deriving DecidableEq, Repr

/-- Row of the `ride_requests` table (`class RideRequest` in `app.py`). -/
structure RideRequest where
  id : Nat
  ride_id : Nat
  rider_id : Nat
  seats : Int
  message : String
  status : String
  created_at : Nat
deriving DecidableEq, Repr

/-- The three tables of the persistent store. -/
structure DB where
  users : List User
  rides : List Ride
  requests : List RideRequest
deriving DecidableEq, Repr

/-- `User.query.get(uid)` / `User.query.filter_by(id=uid).first()`. -/
def findUser (users : List User) (uid : Nat) : Option User :=
  users.find? (fun u => u.id == uid)

/-- `Ride.query.get(rid)`. -/
def findRide (rides : List Ride) (rid : Nat) : Option Ride :=
  rides.find? (fun r => r.id == rid)

/-- `RideRequest.query.get(qid)`. -/
def findRequest (requests : List RideRequest) (qid : Nat) : Option RideRequest :=
  requests.find? (fun r => r.id == qid)

/-- `User.to_dict`: every field of the row except `password_hash`. -/
def User.to_dict (u : User) : JVal :=
  .jobj [("id", .jint u.id), ("firstName", .jstr u.first_name),
    ("lastName", .jstr u.last_name), ("email", .jstr u.email),
    ("phone", .jstr u.phone), ("role", .jstr u.role),
    ("rating", .jint u.rating), ("totalRides", .jint u.total_rides),
    ("createdAt", .jstr (toString u.created_at))]

/-- The keys of `User.to_dict`, as listed in the source. -/
def userDictKeys : List String :=
  ["id", "firstName", "lastName", "email", "phone", "role", "rating",
   "totalRides", "createdAt"]

/-- `Ride.to_dict(include_driver=...)`; the driver lookup reads the users table. -/
def Ride.to_dict (r : Ride) (include_driver : Bool) (users : List User) : JVal :=
  let base : List (String × JVal) :=
    [("id", .jint r.id), ("driverId", .jint r.driver_id),
     ("origin", .jstr r.origin), ("destination", .jstr r.destination),
     ("date", .jstr r.date), ("time", .jstr r.time),
     ("availableSeats", .jint r.available_seats), ("price", .jint r.price),
     ("vehicleType", .jstr r.vehicle_type), ("notes", .jstr r.notes),
     ("status", .jstr r.status), ("createdAt", .jstr (toString r.created_at))]
  if include_driver then
    match findUser users r.driver_id with
    | some d => .jobj (base ++ [("driver", d.to_dict)])
    | none => .jobj base
  else .jobj base

/-- `RideRequest.to_dict(include_rider=..., include_ride=...)`. -/
def RideRequest.to_dict (q : RideRequest) (include_rider include_ride : Bool)
    (db : DB) : JVal :=
  let base : List (String × JVal) :=
    [("id", .jint q.id), ("rideId", .jint q.ride_id),
     ("riderId", .jint q.rider_id), ("seats", .jint q.seats),
     ("message", .jstr q.message), ("status", .jstr q.status),
     ("createdAt", .jstr (toString q.created_at))]
  let withRider :=
    if include_rider then
      match findUser db.users q.rider_id with
      | some u => base ++ [("rider", u.to_dict)]
      | none => base
    else base
  if include_ride then
    match findRide db.rides q.ride_id with
    | some r => .jobj (withRider ++ [("ride", r.to_dict true db.users)])
    | none => .jobj withRider
  else .jobj withRider

/-- Model of werkzeug `generate_password_hash`: a salted one-way hash,
modelled as injective tagging. -/
def generate_password_hash (password : String) : String :=
  "pbkdf2:sha256$" ++ password

/-- Model of werkzeug `check_password_hash`. -/
def check_password_hash (hash password : String) : Bool :=
  hash == generate_password_hash password

/-- Association-list update, modelling Python dict assignment `m[k] = v`. -/
def assocSet {β : Type} (m : List (Nat × β)) (k : Nat) (v : β) : List (Nat × β) :=
  match m with
  | [] => [(k, v)]
  | (k2, v2) :: rest =>
    if k2 == k then (k, v) :: rest else (k2, v2) :: assocSet rest k v

/-- The in-process `RideShareDataStructures` instance `ride_data`, plus the
database and the primary-key counters: the whole mutable server state. -/
structure AppState where
  db : DB
  unique_emails : List String
  active_rides : List Nat
  search_history : List JVal
  user_sessions : List (Nat × JVal)
  ride_cache : List (Nat × JVal)
  driver_rides : List (Nat × List Nat)
  active_drivers : List Nat
  next_user_id : Nat
  next_ride_id : Nat
  next_request_id : Nat

/-- `RideShareDataStructures.add_user_email`: returns whether the email was
new, and the updated set. -/
def add_user_email (emails : List String) (e : String) : Bool × List String :=
  if e ∈ emails then (false, emails) else (true, emails ++ [e])

/-- `RideShareDataStructures.add_to_search_history`: keep only the last 10. -/
def add_to_search_history (hist : List JVal) (p : JVal) : List JVal :=
  let h := if hist.length ≥ 10 then hist.tail else hist
  h ++ [p]

/-- Flask session contents after a successful bind:
`session['user_id']` and `session['user_role']`. -/
structure SessionData where
  user_id : Nat
  user_role : String
deriving DecidableEq, Repr

/-- An HTTP response: status code and `jsonify`-ed body. -/
structure HResp where
  status : Nat
  body : JVal

/-- `jsonify({'message': s})`. -/
def msg (s : String) : JVal := .jobj [("message", .jstr s)]

/-- Result of running a handler: response, new server state, new session. -/
structure HandlerOut where
  resp : HResp
  state : AppState
  sess : Option SessionData

/-- Body of POST /api/auth/register; `none` models an absent key. -/
structure RegisterBody where
  firstName : Option String
  lastName : Option String
  email : Option String
  phone : Option String
  password : Option String
  role : Option String

/-- The `User(...)` row built by `register`; `rating`, `total_rides`,
`created_at` take their column defaults. -/
def newUserFromBody (body : RegisterBody) (uid : Nat) (now : Nat) : User :=
  { id := uid
    first_name := body.firstName.getD ""
    last_name := body.lastName.getD ""
    email := body.email.getD ""
    phone := body.phone.getD ""
    password_hash := generate_password_hash (body.password.getD "")
    role := body.role.getD ""
    rating := 5
    total_rides := 0
    created_at := now }

/-- POST /api/auth/register handler (`register` in `app.py`). -/
def register (body : RegisterBody) (sess : Option SessionData)
    (st : AppState) (now : Nat) : HandlerOut :=
  if body.firstName.isNone then ⟨⟨400, msg "Missing field: firstName"⟩, st, sess⟩
  else if body.lastName.isNone then ⟨⟨400, msg "Missing field: lastName"⟩, st, sess⟩
  else if body.email.isNone then ⟨⟨400, msg "Missing field: email"⟩, st, sess⟩
  else if body.phone.isNone then ⟨⟨400, msg "Missing field: phone"⟩, st, sess⟩
  else if body.password.isNone then ⟨⟨400, msg "Missing field: password"⟩, st, sess⟩
  else if body.role.isNone then ⟨⟨400, msg "Missing field: role"⟩, st, sess⟩
  else
    let email := body.email.getD ""
    let res := add_user_email st.unique_emails email
    let st1 := { st with unique_emails := res.2 }
    if !res.1 then ⟨⟨400, msg "Email already registered"⟩, st1, sess⟩
    else
      match st1.db.users.find? (fun u => u.email == email) with
      | some _ => ⟨⟨400, msg "User already exists"⟩, st1, sess⟩
      | none =>
        let user : User := newUserFromBody body st1.next_user_id now
        let cacheEntry : JVal :=
          .jobj [("role", .jstr user.role), ("email", .jstr user.email),
                 ("login_time", .jstr (toString now))]
        let st2 :=
          { st1 with
            db := { st1.db with users := st1.db.users ++ [user] }
            next_user_id := st1.next_user_id + 1
            user_sessions := assocSet st1.user_sessions user.id cacheEntry }
        ⟨⟨201, user.to_dict⟩, st2, some ⟨user.id, user.role⟩⟩

/-- Body of POST /api/auth/login. -/
structure LoginBody where
  email : Option String
  password : Option String

/-- POST /api/auth/login handler (`login` in `app.py`). -/
def login (body : LoginBody) (sess : Option SessionData)
    (st : AppState) (now : Nat) : HandlerOut :=
  if body.email.isNone || body.password.isNone then
    ⟨⟨400, msg "Email and password required"⟩, st, sess⟩
  else
    let email := body.email.getD ""
    let password := body.password.getD ""
    match st.db.users.find? (fun u => u.email == email) with
    | some user =>
      if check_password_hash user.password_hash password then
        let cacheEntry : JVal :=
          .jobj [("role", .jstr user.role), ("email", .jstr user.email),
                 ("login_time", .jstr (toString now))]
        let st1 :=
          { st with
            user_sessions := assocSet st.user_sessions user.id cacheEntry
            active_drivers :=
              if user.role == "driver" ∧ user.id ∉ st.active_drivers then
                st.active_drivers ++ [user.id]
              else st.active_drivers }
        ⟨⟨200, user.to_dict⟩, st1, some ⟨user.id, user.role⟩⟩
      else ⟨⟨401, msg "Invalid credentials"⟩, st, sess⟩
    | none => ⟨⟨401, msg "Invalid credentials"⟩, st, sess⟩

/-- GET /api/auth/me handler (`get_current_user`), including the
`require_auth` guard. -/
def get_current_user (sess : Option SessionData) (st : AppState) : HandlerOut :=
  match sess with
  | none => ⟨⟨401, msg "Unauthorized"⟩, st, none⟩
  | some s =>
    match findUser st.db.users s.user_id with
    | none => ⟨⟨404, msg "User not found"⟩, st, some s⟩
    | some user => ⟨⟨200, user.to_dict⟩, st, some s⟩

/-- Body of POST /api/rides. -/
structure CreateRideBody where
  origin : Option String
  destination : Option String
  date : Option String
  time : Option String
  availableSeats : Option Int
  price : Option Int
  vehicleType : Option String
  notes : Option String

/-- The `Ride(...)` row built by `create_ride`; `status` takes its column
default `'active'`. -/
def newRideFromBody (body : CreateRideBody) (driver_id rid now : Nat) : Ride :=
  { id := rid
    driver_id := driver_id
    origin := body.origin.getD ""
    destination := body.destination.getD ""
    date := body.date.getD ""
    time := body.time.getD ""
    available_seats := body.availableSeats.getD 0
    price := body.price.getD 0
    vehicle_type := body.vehicleType.getD ""
    notes := body.notes.getD ""
    status := "active"
    created_at := now }

/-- POST /api/rides handler (`create_ride`), including `require_auth`. -/
def create_ride (body : CreateRideBody) (sess : Option SessionData)
    (st : AppState) (now : Nat) : HandlerOut :=
  match sess with
  | none => ⟨⟨401, msg "Unauthorized"⟩, st, none⟩
  | some s =>
    if s.user_role ≠ "driver" then
      ⟨⟨403, msg "Only drivers can post rides"⟩, st, some s⟩
    else if body.origin.isNone then ⟨⟨400, msg "Missing field: origin"⟩, st, some s⟩
    else if body.destination.isNone then ⟨⟨400, msg "Missing field: destination"⟩, st, some s⟩
    else if body.date.isNone then ⟨⟨400, msg "Missing field: date"⟩, st, some s⟩
    else if body.time.isNone then ⟨⟨400, msg "Missing field: time"⟩, st, some s⟩
    else if body.availableSeats.isNone then ⟨⟨400, msg "Missing field: availableSeats"⟩, st, some s⟩
    else if body.price.isNone then ⟨⟨400, msg "Missing field: price"⟩, st, some s⟩
    else if body.vehicleType.isNone then ⟨⟨400, msg "Missing field: vehicleType"⟩, st, some s⟩
    else
      let ride : Ride := newRideFromBody body s.user_id st.next_ride_id now
      let db1 := { st.db with rides := st.db.rides ++ [ride] }
      let driverList := ((st.driver_rides.find? (fun p => p.1 == s.user_id)).map Prod.snd).getD []
      let st1 :=
        { st with
          db := db1
          next_ride_id := st.next_ride_id + 1
          active_rides := st.active_rides ++ [ride.id]
          ride_cache := assocSet st.ride_cache ride.id (ride.to_dict false db1.users)
          driver_rides := assocSet st.driver_rides s.user_id (driverList ++ [ride.id]) }
      ⟨⟨201, ride.to_dict false db1.users⟩, st1, some s⟩

/-- Case-insensitive substring containment, modelling SQL
`column.ilike('%pat%')`. -/
def ilikeContains (s pat : String) : Bool :=
  decide (pat.toLower.toList <:+: s.toLower.toList)

/-- Newest-first ordering on rides, modelling `order_by(created_at.desc())`. -/
def newerFirst (a b : Ride) : Prop := b.created_at ≤ a.created_at

instance : DecidableRel newerFirst := fun a b => Nat.decLe b.created_at a.created_at

instance : IsTotal Ride newerFirst :=
  ⟨fun a b => Nat.le_total b.created_at a.created_at⟩

instance : IsTrans Ride newerFirst :=
  ⟨fun _ _ _ h1 h2 => Nat.le_trans h2 h1⟩

/-- The `Ride.query` pipeline of `search_rides`: filter by `status='active'`,
then by each non-empty parameter, then order newest-first. -/
def searchQuery (origin destination date : String) (rides : List Ride) : List Ride :=
  let q := rides.filter (fun r => r.status == "active")
  let q := if origin ≠ "" then q.filter (fun r => ilikeContains r.origin origin) else q
  let q := if destination ≠ "" then q.filter (fun r => ilikeContains r.destination destination) else q
  let q := if date ≠ "" then q.filter (fun r => r.date == date) else q
  q.insertionSort newerFirst

/-- GET /api/rides/search handler (`search_rides`); the three arguments model
`request.args.get(..., '')`, with `none` for an absent query parameter. -/
def search_rides (originArg destinationArg dateArg : Option String)
    (st : AppState) (now : Nat) : HResp × AppState :=
  let origin := originArg.getD ""
  let destination := destinationArg.getD ""
  let date := dateArg.getD ""
  let searchParams : JVal :=
    .jobj [("origin", .jstr origin), ("destination", .jstr destination),
           ("date", .jstr date), ("timestamp", .jstr (toString now))]
  let st1 := { st with search_history := add_to_search_history st.search_history searchParams }
  let rides := searchQuery origin destination date st1.db.rides
  let result := rides.map (fun r => r.to_dict true st1.db.users)
  let st2 :=
    { st1 with
      ride_cache := rides.foldl (fun c r => assocSet c r.id (r.to_dict true st1.db.users)) st1.ride_cache }
  (⟨200, .jarr result⟩, st2)

/-- Body of POST /api/requests. -/
structure CreateRequestBody where
  rideId : Option Nat
  seats : Option Int
  message : Option String

/-- The `RideRequest(...)` row built by `create_ride_request`; `status`
takes its column default `'pending'`. -/
def newRequestFromBody (body : CreateRequestBody) (rider_id qid now : Nat) : RideRequest :=
  { id := qid
    ride_id := body.rideId.getD 0
    rider_id := rider_id
    seats := body.seats.getD 0
    message := body.message.getD ""
    status := "pending"
    created_at := now }

/-- POST /api/requests handler (`create_ride_request`), including
`require_auth`. -/
def create_ride_request (body : CreateRequestBody) (sess : Option SessionData)
    (st : AppState) (now : Nat) : HandlerOut :=
  match sess with
  | none => ⟨⟨401, msg "Unauthorized"⟩, st, none⟩
  | some s =>
    if s.user_role ≠ "rider" then
      ⟨⟨403, msg "Only riders can request rides"⟩, st, some s⟩
    else if body.rideId.isNone then ⟨⟨400, msg "Missing field: rideId"⟩, st, some s⟩
    else if body.seats.isNone then ⟨⟨400, msg "Missing field: seats"⟩, st, some s⟩
    else
      match findRide st.db.rides (body.rideId.getD 0) with
      | none => ⟨⟨404, msg "Ride not found"⟩, st, some s⟩
      | some ride =>
        if ride.available_seats < body.seats.getD 0 then
          ⟨⟨400, msg "Not enough available seats"⟩, st, some s⟩
        else
          let q : RideRequest := newRequestFromBody body s.user_id st.next_request_id now
          let st1 :=
            { st with
              db := { st.db with requests := st.db.requests ++ [q] }
              next_request_id := st.next_request_id + 1 }
          ⟨⟨201, q.to_dict false false st1.db⟩, st1, some s⟩

/-- PATCH /api/requests/{id} handler (`update_request_status`), including
`require_auth`.  `bodyStatus` models `data.get('status')`. -/
def update_request_status (request_id : Nat) (bodyStatus : Option String)
    (sess : Option SessionData) (st : AppState) : HandlerOut :=
  match sess with
  | none => ⟨⟨401, msg "Unauthorized"⟩, st, none⟩
  | some s =>
    if s.user_role ≠ "driver" then
      ⟨⟨403, msg "Only drivers can update request status"⟩, st, some s⟩
    else
      match bodyStatus with
      | none => ⟨⟨400, msg "Invalid status"⟩, st, some s⟩
      | some status =>
        if status ≠ "accepted" ∧ status ≠ "declined" then
          ⟨⟨400, msg "Invalid status"⟩, st, some s⟩
        else
          match findRequest st.db.requests request_id with
          | none => ⟨⟨404, msg "Request not found"⟩, st, some s⟩
          | some ride_request =>
            match findRide st.db.rides ride_request.ride_id with
            | none => ⟨⟨403, msg "Unauthorized"⟩, st, some s⟩
            | some ride =>
              if ride.driver_id ≠ s.user_id then
                ⟨⟨403, msg "Unauthorized"⟩, st, some s⟩
              else
                let requests1 := st.db.requests.map
                  (fun q => if q.id == request_id then { q with status := status } else q)
                if status == "accepted" then
                  let newSeats := ride.available_seats - ride_request.seats
                  let rides1 := st.db.rides.map
                    (fun r => if r.id == ride.id then
                        { r with available_seats := r.available_seats - ride_request.seats }
                      else r)
                  let active1 :=
                    if newSeats ≤ 0 ∧ ride.id ∈ st.active_rides then
                      st.active_rides.erase ride.id
                    else st.active_rides
                  ⟨⟨200, msg "Request updated successfully"⟩,
                    { st with
                      db := { st.db with requests := requests1, rides := rides1 }
                      active_rides := active1 }, some s⟩
                else
                  ⟨⟨200, msg "Request updated successfully"⟩,
                    { st with db := { st.db with requests := requests1 } }, some s⟩

/-! ## General lemmas about the embedding -/

/-- `find?` commutes with a `map` that leaves the search predicate invariant. -/
theorem find?_map_comm {α : Type} (f : α → α) (p : α → Bool)
    (hp : ∀ a, p (f a) = p a) :
    ∀ l : List α, (l.map f).find? p = (l.find? p).map f := by
  intro l
  induction l with
  | nil => rfl
  | cons a l ih =>
    simp only [List.map_cons, List.find?_cons, hp a]
    cases h : p a
    · exact ih
    · rfl

/-- Updating ride rows without touching their ids commutes with `findRide`. -/
theorem findRide_map (rides : List Ride) (k : Nat) (f : Ride → Ride)
    (hf : ∀ r, (f r).id = r.id) :
    findRide (rides.map f) k = (findRide rides k).map f := by
  apply find?_map_comm
  intro a
  rw [hf]

/-- Updating request rows without touching their ids commutes with
`findRequest`. -/
theorem findRequest_map (requests : List RideRequest) (k : Nat) (f : RideRequest → RideRequest)
    (hf : ∀ q, (f q).id = q.id) :
    findRequest (requests.map f) k = (findRequest requests k).map f := by
  apply find?_map_comm
  intro a
  rw [hf]

/-- Updating user rows without touching their ids commutes with `findUser`. -/
theorem findUser_map (users : List User) (k : Nat) (f : User → User)
    (hf : ∀ u, (f u).id = u.id) :
    findUser (users.map f) k = (findUser users k).map f := by
  apply find?_map_comm
  intro a
  rw [hf]

/-! ## Characterizations of `update_request_status` -/

/-- On an error response, `update_request_status` leaves the whole server
state untouched and answers 400, 401, 403 or 404. -/
theorem update_request_status_error (rid : Nat) (bs : Option String)
    (sess : Option SessionData) (st : AppState)
    (h : (update_request_status rid bs sess st).resp.status ≠ 200) :
    (update_request_status rid bs sess st).state = st ∧
    ((update_request_status rid bs sess st).resp.status = 400 ∨
     (update_request_status rid bs sess st).resp.status = 401 ∨
     (update_request_status rid bs sess st).resp.status = 403 ∨
     (update_request_status rid bs sess st).resp.status = 404) := by
  unfold update_request_status at h ⊢
  rcases sess with _ | s
  · exact ⟨rfl, by simp⟩
  · by_cases hrole : s.user_role = "driver"
    · rcases bs with _ | status
      · simp [hrole]
      · simp only [hrole, ite_false, if_neg (by simp : ¬ ("driver" ≠ "driver"))] at h ⊢
        by_cases hstat : status ≠ "accepted" ∧ status ≠ "declined"
        · simp [hstat]
        · rcases hq : findRequest st.db.requests rid with _ | req
          · simp [hstat, hq]
          · rcases hr : findRide st.db.rides req.ride_id with _ | ride
            · simp [hstat, hq, hr]
            · by_cases hown : ride.driver_id = s.user_id
              · exfalso
                apply h
                simp only [if_neg hstat, hq, hr, if_neg (by simp [hown] : ¬ (ride.driver_id ≠ s.user_id))]
                by_cases hacc : status == "accepted" <;> simp [hacc]
              · simp [hstat, hq, hr, hown]
    · simp [hrole]

/-- Successful acceptance: the full output of `update_request_status`. -/
theorem update_accept_eq (rid : Nat) (s : SessionData) (st : AppState)
    (req : RideRequest) (ride : Ride)
    (hrole : s.user_role = "driver")
    (hreq : findRequest st.db.requests rid = some req)
    (hride : findRide st.db.rides req.ride_id = some ride)
    (hown : ride.driver_id = s.user_id) :
    update_request_status rid (some "accepted") (some s) st =
      ⟨⟨200, msg "Request updated successfully"⟩,
        { st with
          db := { st.db with
            requests := st.db.requests.map
              (fun q => if q.id == rid then { q with status := "accepted" } else q)
            rides := st.db.rides.map
              (fun r => if r.id == ride.id then
                  { r with available_seats := r.available_seats - req.seats }
                else r) }
          active_rides :=
            if ride.available_seats - req.seats ≤ 0 ∧ ride.id ∈ st.active_rides then
              st.active_rides.erase ride.id
            else st.active_rides }, some s⟩ := by
  unfold update_request_status
  simp [hrole, hreq, hride, hown]

/-- Successful decline: the full output of `update_request_status`. -/
theorem update_decline_eq (rid : Nat) (s : SessionData) (st : AppState)
    (req : RideRequest) (ride : Ride)
    (hrole : s.user_role = "driver")
    (hreq : findRequest st.db.requests rid = some req)
    (hride : findRide st.db.rides req.ride_id = some ride)
    (hown : ride.driver_id = s.user_id) :
    update_request_status rid (some "declined") (some s) st =
      ⟨⟨200, msg "Request updated successfully"⟩,
        { st with
          db := { st.db with
            requests := st.db.requests.map
              (fun q => if q.id == rid then { q with status := "declined" } else q) } },
        some s⟩ := by
  unfold update_request_status
  simp [hrole, hreq, hride, hown]

/-- Inversion: a 200 answer from `update_request_status` pins down the
caller (a driver owning the referenced ride) and the supplied status. -/
theorem update_request_status_success_inv (rid : Nat) (bs : Option String)
    (sess : Option SessionData) (st : AppState)
    (h : (update_request_status rid bs sess st).resp.status = 200) :
    ∃ s status req ride,
      sess = some s ∧ s.user_role = "driver" ∧ bs = some status ∧
      (status = "accepted" ∨ status = "declined") ∧
      findRequest st.db.requests rid = some req ∧
      findRide st.db.rides req.ride_id = some ride ∧
      ride.driver_id = s.user_id := by
  unfold update_request_status at h
  rcases sess with _ | s
  · simp at h
  · by_cases hrole : s.user_role = "driver"
    · rcases bs with _ | status
      · simp [hrole] at h
      · simp only [hrole, if_neg (by simp : ¬ ("driver" ≠ "driver"))] at h
        by_cases hstat : status ≠ "accepted" ∧ status ≠ "declined"
        · simp [hstat] at h
        · rcases hq : findRequest st.db.requests rid with _ | req
          · simp [hstat, hq] at h
          · rcases hr : findRide st.db.rides req.ride_id with _ | ride
            · simp [hstat, hq, hr] at h
            · by_cases hown : ride.driver_id = s.user_id
              · refine ⟨s, status, req, ride, rfl, hrole, rfl, ?_, hq ▸ rfl, hr ▸ rfl, hown⟩
                by_cases h1 : status = "accepted"
                · exact Or.inl h1
                · by_cases h2 : status = "declined"
                  · exact Or.inr h2
                  · exact absurd ⟨h1, h2⟩ hstat
              · simp [hstat, hq, hr, hown] at h
    · simp [hrole] at h

/-! ## Concrete fixtures used by counterexamples and witnesses -/

/-- A stored driver. -/
def demoDriver : User :=
  { id := 10, first_name := "Dana", last_name := "Driver",
    email := "dana@example.com", phone := "111",
    password_hash := generate_password_hash "secret1", role := "driver",
    rating := 5, total_rides := 0, created_at := 0 }

/-- A stored rider. -/
def demoRider : User :=
  { id := 20, first_name := "Rob", last_name := "Rider",
    email := "rob@example.com", phone := "222",
    password_hash := generate_password_hash "secret2", role := "rider",
    rating := 5, total_rides := 0, created_at := 1 }

/-- A ride of `demoDriver` with a single free seat. -/
def demoRide : Ride :=
  { id := 1, driver_id := 10, origin := "Mumbai Central", destination := "Bandra",
    date := "2025-01-01", time := "10:00", available_seats := 1, price := 100,
    vehicle_type := "sedan", notes := "", status := "active", created_at := 3 }

/-- A pending request of `demoRider` for two seats on `demoRide`. -/
def demoRequest : RideRequest :=
  { id := 5, ride_id := 1, rider_id := 20, seats := 2, message := "",
    status := "pending", created_at := 4 }

/-- Server state holding the fixtures above. -/
def demoState : AppState :=
  { db := { users := [demoDriver, demoRider], rides := [demoRide],
            requests := [demoRequest] }
    unique_emails := ["dana@example.com", "rob@example.com"]
    active_rides := [1]
    search_history := []
    user_sessions := []
    ride_cache := []
    driver_rides := [(10, [1])]
    active_drivers := []
    next_user_id := 21
    next_ride_id := 2
    next_request_id := 6 }

/-- `demoState` with the request already accepted. -/
def acceptedState : AppState :=
  { demoState with
    db := { demoState.db with requests := [{ demoRequest with status := "accepted" }] } }

/-- `demoRide` with three free seats. -/
def roomyRide : Ride := { demoRide with available_seats := 3 }

/-- `demoState` with the roomier ride. -/
def roomyState : AppState :=
  { demoState with db := { demoState.db with rides := [roomyRide] } }

/-! ## C1 -/

/-- C1, counterexample: accepting a request for 2 seats on a ride with 1
available seat is NOT rejected — it answers 200 and drives
`available_seats` to −1, mutating both rows.  This refutes the claim that
an acceptance which would make `available_seats` negative is rejected and
leaves the ride and the request unchanged. -/
theorem C1_counterexample :
    demoRide.available_seats = 1 ∧ demoRequest.seats = 2 ∧
    (update_request_status 5 (some "accepted") (some ⟨10, "driver"⟩) demoState).resp.status = 200 ∧
    findRide (update_request_status 5 (some "accepted") (some ⟨10, "driver"⟩) demoState).state.db.rides 1
      = some { demoRide with available_seats := -1 } ∧
    findRequest (update_request_status 5 (some "accepted") (some ⟨10, "driver"⟩) demoState).state.db.requests 5
      = some { demoRequest with status := "accepted" } := by
  refine ⟨by decide, by decide, by decide, by decide, by decide⟩

/-- C1 (amended): `update_request_status` re-checks nothing about seat
availability at acceptance time: whenever the owning driver accepts a
request whose seat count exceeds the ride's `available_seats`, the
operation still succeeds (200) and stores a strictly negative
`available_seats`; neither row is left unchanged. -/
theorem C1_accept_can_go_negative (rid : Nat) (s : SessionData) (st : AppState)
    (req : RideRequest) (ride : Ride)
    (hrole : s.user_role = "driver")
    (hreq : findRequest st.db.requests rid = some req)
    (hride : findRide st.db.rides req.ride_id = some ride)
    (hown : ride.driver_id = s.user_id)
    (hlt : ride.available_seats < req.seats) :
    (update_request_status rid (some "accepted") (some s) st).resp.status = 200 ∧
    findRide (update_request_status rid (some "accepted") (some s) st).state.db.rides req.ride_id
      = some { ride with available_seats := ride.available_seats - req.seats } ∧
    ride.available_seats - req.seats < 0 := by
  rw [update_accept_eq rid s st req ride hrole hreq hride hown]
  refine ⟨rfl, ?_, by omega⟩
  show findRide (st.db.rides.map
      (fun r => if r.id == ride.id then
          { r with available_seats := r.available_seats - req.seats } else r))
      req.ride_id
    = some { ride with available_seats := ride.available_seats - req.seats }
  rw [findRide_map _ _ _ (fun r => by by_cases h : r.id == ride.id <;> simp [h]), hride]
  simp

/-- Witness for C1 (amended) at the concrete fixture state. -/
theorem C1_accept_can_go_negative_witness :
    (update_request_status 5 (some "accepted") (some ⟨10, "driver"⟩) demoState).resp.status = 200 ∧
    findRide (update_request_status 5 (some "accepted") (some ⟨10, "driver"⟩) demoState).state.db.rides demoRequest.ride_id
      = some { demoRide with available_seats := demoRide.available_seats - demoRequest.seats } ∧
    demoRide.available_seats - demoRequest.seats < 0 :=
  C1_accept_can_go_negative 5 ⟨10, "driver"⟩ demoState demoRequest demoRide
    rfl (by decide) (by decide) (by decide) (by decide)

/-! ## C2 -/

/-- C2, counterexample: a request whose status is already `accepted` is
changed to `declined` by the owning driver, and the operation answers 200.
This refutes the claim that no operation changes the status of a request
that is already accepted or declined (the handler never checks that the
current status is `pending`). -/
theorem C2_counterexample :
    findRequest acceptedState.db.requests 5 = some { demoRequest with status := "accepted" } ∧
    (update_request_status 5 (some "declined") (some ⟨10, "driver"⟩) acceptedState).resp.status = 200 ∧
    findRequest (update_request_status 5 (some "declined") (some ⟨10, "driver"⟩) acceptedState).state.db.requests 5
      = some { demoRequest with status := "declined" } := by
  refine ⟨by decide, by decide, by decide⟩

/-- C2 (amended): every 200 answer of `update_request_status` was performed
by a driver session owning the referenced ride and writes the supplied
status, which is always `accepted` or `declined`; but the transition is
performed regardless of the request's current status — a request already
accepted or declined is overwritten just the same (no pending-only check). -/
theorem C2_status_transition_characterization (rid : Nat) (bs : Option String)
    (sess : Option SessionData) (st : AppState)
    (h : (update_request_status rid bs sess st).resp.status = 200) :
    ∃ s status req ride,
      sess = some s ∧ s.user_role = "driver" ∧ bs = some status ∧
      (status = "accepted" ∨ status = "declined") ∧
      findRequest st.db.requests rid = some req ∧
      findRide st.db.rides req.ride_id = some ride ∧
      ride.driver_id = s.user_id ∧
      findRequest (update_request_status rid bs sess st).state.db.requests rid
        = some { req with status := status } := by
  obtain ⟨s, status, req, ride, hsess, hrole, hbs, hst, hq, hr, hown⟩ :=
    update_request_status_success_inv rid bs sess st h
  subst hsess; subst hbs
  refine ⟨s, status, req, ride, rfl, hrole, rfl, hst, hq, hr, hown, ?_⟩
  have hq2 : st.db.requests.find? (fun q => q.id == rid) = some req := hq
  have hqid : (req.id == rid) = true := by simpa using List.find?_some hq2
  rcases hst with h1 | h1 <;> subst h1
  · rw [update_accept_eq rid s st req ride hrole hq hr hown]
    show findRequest (st.db.requests.map
        (fun q => if q.id == rid then { q with status := "accepted" } else q)) rid
      = some { req with status := "accepted" }
    rw [findRequest_map _ _ _ (fun q => by by_cases hh : q.id == rid <;> simp [hh]), hq]
    have hid : req.id = rid := by simpa using hqid
    simp [hid]
  · rw [update_decline_eq rid s st req ride hrole hq hr hown]
    show findRequest (st.db.requests.map
        (fun q => if q.id == rid then { q with status := "declined" } else q)) rid
      = some { req with status := "declined" }
    rw [findRequest_map _ _ _ (fun q => by by_cases hh : q.id == rid <;> simp [hh]), hq]
    have hid : req.id = rid := by simpa using hqid
    simp [hid]

/-- Witness for C2 (amended): the concrete 200 run on a request that is
already accepted. -/
theorem C2_status_transition_characterization_witness :
    ∃ s status req ride,
      (some ⟨10, "driver"⟩ : Option SessionData) = some s ∧ s.user_role = "driver" ∧
      (some "declined" : Option String) = some status ∧
      (status = "accepted" ∨ status = "declined") ∧
      findRequest acceptedState.db.requests 5 = some req ∧
      findRide acceptedState.db.rides req.ride_id = some ride ∧
      ride.driver_id = s.user_id ∧
      findRequest (update_request_status 5 (some "declined") (some ⟨10, "driver"⟩) acceptedState).state.db.requests 5
        = some { req with status := status } :=
  C2_status_transition_characterization 5 (some "declined") (some ⟨10, "driver"⟩)
    acceptedState (by decide)

/-! ## C3 -/

/-- C3: when the owning driver accepts a request for `req.seats` seats, the
ride's `available_seats` drops by exactly that amount, the request's status
becomes `accepted`, and the handler answers 200 with a success message. -/
theorem C3_accept_success (rid : Nat) (s : SessionData) (st : AppState)
    (req : RideRequest) (ride : Ride)
    (hrole : s.user_role = "driver")
    (hreq : findRequest st.db.requests rid = some req)
    (hride : findRide st.db.rides req.ride_id = some ride)
    (hown : ride.driver_id = s.user_id) :
    (update_request_status rid (some "accepted") (some s) st).resp.status = 200 ∧
    (update_request_status rid (some "accepted") (some s) st).resp.body
      = msg "Request updated successfully" ∧
    findRide (update_request_status rid (some "accepted") (some s) st).state.db.rides req.ride_id
      = some { ride with available_seats := ride.available_seats - req.seats } ∧
    findRequest (update_request_status rid (some "accepted") (some s) st).state.db.requests rid
      = some { req with status := "accepted" } := by
  rw [update_accept_eq rid s st req ride hrole hreq hride hown]
  have hreq2 : st.db.requests.find? (fun q => q.id == rid) = some req := hreq
  have hqid : (req.id == rid) = true := by simpa using List.find?_some hreq2
  refine ⟨rfl, rfl, ?_, ?_⟩
  · show findRide (st.db.rides.map
        (fun r => if r.id == ride.id then
            { r with available_seats := r.available_seats - req.seats } else r))
        req.ride_id
      = some { ride with available_seats := ride.available_seats - req.seats }
    rw [findRide_map _ _ _ (fun r => by by_cases h : r.id == ride.id <;> simp [h]), hride]
    simp
  · show findRequest (st.db.requests.map
        (fun q => if q.id == rid then { q with status := "accepted" } else q)) rid
      = some { req with status := "accepted" }
    rw [findRequest_map _ _ _ (fun q => by by_cases hh : q.id == rid <;> simp [hh]), hreq]
    have hid : req.id = rid := by simpa using hqid
    simp [hid]

/-- Witness for C3 at the concrete fixture state with three free seats. -/
theorem C3_accept_success_witness :
    (update_request_status 5 (some "accepted") (some ⟨10, "driver"⟩) roomyState).resp.status = 200 ∧
    (update_request_status 5 (some "accepted") (some ⟨10, "driver"⟩) roomyState).resp.body
      = msg "Request updated successfully" ∧
    findRide (update_request_status 5 (some "accepted") (some ⟨10, "driver"⟩) roomyState).state.db.rides demoRequest.ride_id
      = some { roomyRide with available_seats := roomyRide.available_seats - demoRequest.seats } ∧
    findRequest (update_request_status 5 (some "accepted") (some ⟨10, "driver"⟩) roomyState).state.db.requests 5
      = some { demoRequest with status := "accepted" } :=
  C3_accept_success 5 ⟨10, "driver"⟩ roomyState demoRequest roomyRide
    rfl (by decide) (by decide) (by decide)

/-! ## Per-handler state lemmas -/

/-- On any non-201 response, `register` answers 400 and leaves the database
unchanged (only the illustrative in-process email set may have grown). -/
theorem register_error (body : RegisterBody) (sess : Option SessionData)
    (st : AppState) (now : Nat)
    (h : (register body sess st now).resp.status ≠ 201) :
    (register body sess st now).state.db = st.db ∧
    (register body sess st now).resp.status = 400 := by
  unfold register at h ⊢
  by_cases h1 : body.firstName.isNone; · simp [h1]
  by_cases h2 : body.lastName.isNone; · simp [h1, h2]
  by_cases h3 : body.email.isNone; · simp [h1, h2, h3]
  by_cases h4 : body.phone.isNone; · simp [h1, h2, h3, h4]
  by_cases h5 : body.password.isNone; · simp [h1, h2, h3, h4, h5]
  by_cases h6 : body.role.isNone; · simp [h1, h2, h3, h4, h5, h6]
  by_cases h7 : (add_user_email st.unique_emails (body.email.getD "")).1
  · rcases hf : st.db.users.find? (fun u => u.email == body.email.getD "") with _ | u
    · exfalso
      apply h
      simp [h1, h2, h3, h4, h5, h6, h7, hf]
    · simp [h1, h2, h3, h4, h5, h6, h7, hf]
  · simp [h1, h2, h3, h4, h5, h6, h7]

/-- On a 201 response, `register` appended exactly the new user row, whose
email was not present before; nothing else in the database changed. -/
theorem register_success_db (body : RegisterBody) (sess : Option SessionData)
    (st : AppState) (now : Nat)
    (h : (register body sess st now).resp.status = 201) :
    (∀ u ∈ st.db.users, (u.email == body.email.getD "") = false) ∧
    (register body sess st now).state.db =
      { st.db with users := st.db.users ++ [newUserFromBody body st.next_user_id now] } := by
  unfold register at h ⊢
  by_cases h1 : body.firstName.isNone; · simp [h1] at h
  by_cases h2 : body.lastName.isNone; · simp [h1, h2] at h
  by_cases h3 : body.email.isNone; · simp [h1, h2, h3] at h
  by_cases h4 : body.phone.isNone; · simp [h1, h2, h3, h4] at h
  by_cases h5 : body.password.isNone; · simp [h1, h2, h3, h4, h5] at h
  by_cases h6 : body.role.isNone; · simp [h1, h2, h3, h4, h5, h6] at h
  by_cases h7 : (add_user_email st.unique_emails (body.email.getD "")).1
  · rcases hf : st.db.users.find? (fun u => u.email == body.email.getD "") with _ | u
    · constructor
      · intro u hu
        have := List.find?_eq_none.mp hf u hu
        simpa using this
      · simp [h1, h2, h3, h4, h5, h6, h7, hf]
    · simp [h1, h2, h3, h4, h5, h6, h7, hf] at h
  · simp [h1, h2, h3, h4, h5, h6, h7] at h

/-- `login` never touches the database. -/
theorem login_db (body : LoginBody) (sess : Option SessionData)
    (st : AppState) (now : Nat) :
    (login body sess st now).state.db = st.db := by
  unfold login
  by_cases h1 : body.email.isNone || body.password.isNone
  · simp [h1]
  · rcases hf : st.db.users.find? (fun u => u.email == body.email.getD "") with _ | u
    · simp [h1, hf]
    · by_cases hc : check_password_hash u.password_hash (body.password.getD "")
      · simp [h1, hf, hc]
      · simp [h1, hf, hc]

/-- `get_current_user` never touches the server state. -/
theorem get_current_user_state (sess : Option SessionData) (st : AppState) :
    (get_current_user sess st).state = st := by
  unfold get_current_user
  rcases sess with _ | s
  · rfl
  · rcases hf : findUser st.db.users s.user_id with _ | u <;> simp [hf]

/-- On any non-201 response, `create_ride` leaves the whole server state
unchanged. -/
theorem create_ride_error (body : CreateRideBody) (sess : Option SessionData)
    (st : AppState) (now : Nat)
    (h : (create_ride body sess st now).resp.status ≠ 201) :
    (create_ride body sess st now).state = st := by
  unfold create_ride at h ⊢
  rcases sess with _ | s
  · rfl
  · by_cases hrole : s.user_role = "driver"
    · by_cases h1 : body.origin.isNone; · simp [hrole, h1]
      by_cases h2 : body.destination.isNone; · simp [hrole, h1, h2]
      by_cases h3 : body.date.isNone; · simp [hrole, h1, h2, h3]
      by_cases h4 : body.time.isNone; · simp [hrole, h1, h2, h3, h4]
      by_cases h5 : body.availableSeats.isNone; · simp [hrole, h1, h2, h3, h4, h5]
      by_cases h6 : body.price.isNone; · simp [hrole, h1, h2, h3, h4, h5, h6]
      by_cases h7 : body.vehicleType.isNone; · simp [hrole, h1, h2, h3, h4, h5, h6, h7]
      exfalso
      apply h
      simp [hrole, h1, h2, h3, h4, h5, h6, h7]
    · simp [hrole]

/-- A session whose role is not `driver` gets a 403 from `create_ride` and
changes nothing. -/
theorem create_ride_wrong_role (body : CreateRideBody) (s : SessionData)
    (st : AppState) (now : Nat) (h : s.user_role ≠ "driver") :
    create_ride body (some s) st now =
      ⟨⟨403, msg "Only drivers can post rides"⟩, st, some s⟩ := by
  unfold create_ride
  simp [h]

/-- On a 201 response, `create_ride` appended exactly one new ride, owned by
the driver session and with status `active`. -/
theorem create_ride_success_db (body : CreateRideBody) (sess : Option SessionData)
    (st : AppState) (now : Nat)
    (h : (create_ride body sess st now).resp.status = 201) :
    ∃ s, sess = some s ∧ s.user_role = "driver" ∧
      (create_ride body sess st now).state.db =
        { st.db with rides := st.db.rides ++ [newRideFromBody body s.user_id st.next_ride_id now] } := by
  unfold create_ride at h ⊢
  rcases sess with _ | s
  · simp at h
  · by_cases hrole : s.user_role = "driver"
    · by_cases h1 : body.origin.isNone; · simp [hrole, h1] at h
      by_cases h2 : body.destination.isNone; · simp [hrole, h1, h2] at h
      by_cases h3 : body.date.isNone; · simp [hrole, h1, h2, h3] at h
      by_cases h4 : body.time.isNone; · simp [hrole, h1, h2, h3, h4] at h
      by_cases h5 : body.availableSeats.isNone; · simp [hrole, h1, h2, h3, h4, h5] at h
      by_cases h6 : body.price.isNone; · simp [hrole, h1, h2, h3, h4, h5, h6] at h
      by_cases h7 : body.vehicleType.isNone; · simp [hrole, h1, h2, h3, h4, h5, h6, h7] at h
      exact ⟨s, rfl, hrole, by simp [hrole, h1, h2, h3, h4, h5, h6, h7]⟩
    · simp [hrole] at h

/-- `search_rides` never touches the database. -/
theorem search_rides_db (a b c : Option String) (st : AppState) (now : Nat) :
    (search_rides a b c st now).2.db = st.db := rfl

/-- On any non-201 response, `create_ride_request` leaves the whole server
state unchanged. -/
theorem create_ride_request_error (body : CreateRequestBody)
    (sess : Option SessionData) (st : AppState) (now : Nat)
    (h : (create_ride_request body sess st now).resp.status ≠ 201) :
    (create_ride_request body sess st now).state = st := by
  unfold create_ride_request at h ⊢
  rcases sess with _ | s
  · rfl
  · by_cases hrole : s.user_role = "rider"
    · by_cases h1 : body.rideId.isNone; · simp [hrole, h1]
      by_cases h2 : body.seats.isNone; · simp [hrole, h1, h2]
      rcases hf : findRide st.db.rides (body.rideId.getD 0) with _ | ride
      · simp [hrole, h1, h2, hf]
      · by_cases hlt : ride.available_seats < body.seats.getD 0
        · simp [hrole, h1, h2, hf, hlt]
        · exfalso
          apply h
          simp [hrole, h1, h2, hf, hlt]
    · simp [hrole]

/-- Requesting more seats than the ride currently has available answers 400
and changes nothing. -/
theorem create_ride_request_insufficient (body : CreateRequestBody)
    (s : SessionData) (st : AppState) (now : Nat) (ride : Ride)
    (hrole : s.user_role = "rider")
    (h1 : body.rideId.isSome) (h2 : body.seats.isSome)
    (hf : findRide st.db.rides (body.rideId.getD 0) = some ride)
    (hlt : ride.available_seats < body.seats.getD 0) :
    create_ride_request body (some s) st now =
      ⟨⟨400, msg "Not enough available seats"⟩, st, some s⟩ := by
  unfold create_ride_request
  have h1n : ¬ body.rideId.isNone := by
    rw [Option.isNone_iff_eq_none]
    intro hc
    rw [hc] at h1
    simp at h1
  have h2n : ¬ body.seats.isNone := by
    rw [Option.isNone_iff_eq_none]
    intro hc
    rw [hc] at h2
    simp at h2
  simp [hrole, h1n, h2n, hf, hlt]

/-- On a 201 response, `create_ride_request` appended exactly one new
request, made by the rider session and with status `pending`. -/
theorem create_ride_request_success_db (body : CreateRequestBody)
    (sess : Option SessionData) (st : AppState) (now : Nat)
    (h : (create_ride_request body sess st now).resp.status = 201) :
    ∃ s, sess = some s ∧ s.user_role = "rider" ∧
      (create_ride_request body sess st now).state.db =
        { st.db with requests := st.db.requests ++ [newRequestFromBody body s.user_id st.next_request_id now] } := by
  unfold create_ride_request at h ⊢
  rcases sess with _ | s
  · simp at h
  · by_cases hrole : s.user_role = "rider"
    · by_cases h1 : body.rideId.isNone; · simp [hrole, h1] at h
      by_cases h2 : body.seats.isNone; · simp [hrole, h1, h2] at h
      rcases hf : findRide st.db.rides (body.rideId.getD 0) with _ | ride
      · simp [hrole, h1, h2, hf] at h
      · by_cases hlt : ride.available_seats < body.seats.getD 0
        · simp [hrole, h1, h2, hf, hlt] at h
        · exact ⟨s, rfl, hrole, by simp [hrole, h1, h2, hf, hlt]⟩
    · simp [hrole] at h

/-! ## C4 -/

/-- C4: every handler in scope leaves the persistent store (the database)
unchanged on a 4xx response (validation, auth, forbidden, not-found); in
particular a non-driver session calling create-ride gets 403 with no Ride
row created, and a create-ride-request for more seats than currently
available gets 400 with no RideRequest row created. -/
theorem C4_error_paths_no_mutation :
    (∀ body sess st now, (register body sess st now).resp.status ≥ 400 →
        (register body sess st now).state.db = st.db) ∧
    (∀ body sess st now, (login body sess st now).state.db = st.db) ∧
    (∀ sess st, (get_current_user sess st).state.db = st.db) ∧
    (∀ body sess st now, (create_ride body sess st now).resp.status ≥ 400 →
        (create_ride body sess st now).state.db = st.db) ∧
    (∀ body sess st now, (create_ride_request body sess st now).resp.status ≥ 400 →
        (create_ride_request body sess st now).state.db = st.db) ∧
    (∀ rid bs sess st, (update_request_status rid bs sess st).resp.status ≥ 400 →
        (update_request_status rid bs sess st).state.db = st.db) ∧
    (∀ body s st now, s.user_role = "rider" →
        (create_ride body (some s) st now).resp.status = 403 ∧
        (create_ride body (some s) st now).state.db = st.db) ∧
    (∀ body s st now ride, s.user_role = "rider" →
        body.rideId.isSome → body.seats.isSome →
        findRide st.db.rides (body.rideId.getD 0) = some ride →
        ride.available_seats < body.seats.getD 0 →
        (create_ride_request body (some s) st now).resp.status = 400 ∧
        (create_ride_request body (some s) st now).state.db = st.db) := by
  refine ⟨?_, ?_, ?_, ?_, ?_, ?_, ?_, ?_⟩
  · intro body sess st now h
    exact (register_error body sess st now (fun hc => by omega)).1
  · intro body sess st now
    exact login_db body sess st now
  · intro sess st
    rw [get_current_user_state]
  · intro body sess st now h
    rw [create_ride_error body sess st now (fun hc => by omega)]
  · intro body sess st now h
    rw [create_ride_request_error body sess st now (fun hc => by omega)]
  · intro rid bs sess st h
    rw [(update_request_status_error rid bs sess st (fun hc => by omega)).1]
  · intro body s st now hrole
    rw [create_ride_wrong_role body s st now (by simp [hrole])]
    exact ⟨rfl, rfl⟩
  · intro body s st now ride hrole h1 h2 hf hlt
    rw [create_ride_request_insufficient body s st now ride hrole h1 h2 hf hlt]
    exact ⟨rfl, rfl⟩

/-- Witness for C4: a rider blocked from creating a ride (403, store
unchanged) and a request for 5 seats on a 1-seat ride rejected (400, store
unchanged), both at concrete inputs. -/
theorem C4_error_paths_no_mutation_witness :
    ((create_ride ⟨none, none, none, none, none, none, none, none⟩
        (some ⟨20, "rider"⟩) demoState 7).resp.status = 403 ∧
      (create_ride ⟨none, none, none, none, none, none, none, none⟩
        (some ⟨20, "rider"⟩) demoState 7).state.db = demoState.db) ∧
    ((create_ride_request ⟨some 1, some 5, none⟩
        (some ⟨20, "rider"⟩) demoState 7).resp.status = 400 ∧
      (create_ride_request ⟨some 1, some 5, none⟩
        (some ⟨20, "rider"⟩) demoState 7).state.db = demoState.db) :=
  ⟨C4_error_paths_no_mutation.2.2.2.2.2.2.1
      ⟨none, none, none, none, none, none, none, none⟩ ⟨20, "rider"⟩ demoState 7 rfl,
   C4_error_paths_no_mutation.2.2.2.2.2.2.2
      ⟨some 1, some 5, none⟩ ⟨20, "rider"⟩ demoState 7 demoRide rfl
      (by decide) (by decide) (by decide) (by decide)⟩

/-! ## C5 -/

/-- The initial server state: empty tables, fresh counters. -/
def emptyState : AppState :=
  { db := { users := [], rides := [], requests := [] }
    unique_emails := []
    active_rides := []
    search_history := []
    user_sessions := []
    ride_cache := []
    driver_rides := []
    active_drivers := []
    next_user_id := 1
    next_ride_id := 1
    next_request_id := 1 }

/-- A registration body carrying the out-of-range role `admin`. -/
def adminBody : RegisterBody :=
  ⟨some "Ada", some "Admin", some "ada@example.com", some "333",
   some "pw", some "admin"⟩

/-- C5, counterexample: registering with role `admin` succeeds (201) and
stores a user whose role is `admin` — neither `driver` nor `rider`.  This
refutes the claim that registration with any other role value does not
create a user with an out-of-range role (the handler never validates the
role field). -/
theorem C5_counterexample :
    (register adminBody none emptyState 0).resp.status = 201 ∧
    (register adminBody none emptyState 0).state.db.users.map User.role = ["admin"] := by
  exact ⟨by decide, by decide⟩

/-- C5 (amended): the role field is stored verbatim from the registration
body — any string, not only `driver`/`rider` — and is immutable afterwards:
no handler in scope ever modifies an existing user row. -/
theorem C5_role_verbatim_and_immutable :
    (∀ body sess st now, (login body sess st now).state.db.users = st.db.users) ∧
    (∀ sess st, (get_current_user sess st).state.db.users = st.db.users) ∧
    (∀ a b c st now, (search_rides a b c st now).2.db.users = st.db.users) ∧
    (∀ body sess st now, (create_ride body sess st now).state.db.users = st.db.users) ∧
    (∀ body sess st now, (create_ride_request body sess st now).state.db.users = st.db.users) ∧
    (∀ rid bs sess st, (update_request_status rid bs sess st).state.db.users = st.db.users) ∧
    (∀ body sess st now,
      (register body sess st now).state.db.users = st.db.users ∨
      (register body sess st now).state.db.users
        = st.db.users ++ [newUserFromBody body st.next_user_id now]) ∧
    (∀ body uid now, (newUserFromBody body uid now).role = body.role.getD "") := by
  refine ⟨?_, ?_, ?_, ?_, ?_, ?_, ?_, ?_⟩
  · intro body sess st now
    rw [login_db]
  · intro sess st
    rw [get_current_user_state]
  · intro a b c st now
    rw [search_rides_db]
  · intro body sess st now
    by_cases h : (create_ride body sess st now).resp.status = 201
    · obtain ⟨s, _, _, hdb⟩ := create_ride_success_db body sess st now h
      rw [hdb]
    · rw [create_ride_error body sess st now h]
  · intro body sess st now
    by_cases h : (create_ride_request body sess st now).resp.status = 201
    · obtain ⟨s, _, _, hdb⟩ := create_ride_request_success_db body sess st now h
      rw [hdb]
    · rw [create_ride_request_error body sess st now h]
  · intro rid bs sess st
    by_cases h : (update_request_status rid bs sess st).resp.status = 200
    · obtain ⟨s, status, req, ride, hsess, hrole, hbs, hst, hq, hr, hown⟩ :=
        update_request_status_success_inv rid bs sess st h
      subst hsess; subst hbs
      rcases hst with h1 | h1 <;> subst h1
      · rw [update_accept_eq rid s st req ride hrole hq hr hown]
      · rw [update_decline_eq rid s st req ride hrole hq hr hown]
    · rw [(update_request_status_error rid bs sess st h).1]
  · intro body sess st now
    by_cases h : (register body sess st now).resp.status = 201
    · exact Or.inr (by rw [(register_success_db body sess st now h).2])
    · exact Or.inl (by rw [(register_error body sess st now h).1])
  · intro body uid now
    rfl

/-! ## C6 -/

/-- Stored users have pairwise distinct email addresses. -/
def emailsUnique (users : List User) : Prop :=
  users.Pairwise (fun a b => a.email ≠ b.email)

/-- `register` preserves distinctness of stored emails. -/
theorem register_preserves_emailsUnique (body : RegisterBody)
    (sess : Option SessionData) (st : AppState) (now : Nat)
    (hu : emailsUnique st.db.users) :
    emailsUnique (register body sess st now).state.db.users := by
  by_cases h : (register body sess st now).resp.status = 201
  · obtain ⟨hall, hdb⟩ := register_success_db body sess st now h
    rw [hdb]
    show emailsUnique (st.db.users ++ [newUserFromBody body st.next_user_id now])
    unfold emailsUnique at hu ⊢
    rw [List.pairwise_append]
    refine ⟨hu, by simp, ?_⟩
    intro a ha b hb
    simp only [List.mem_singleton] at hb
    subst hb
    have := hall a ha
    intro hc
    rw [show (newUserFromBody body st.next_user_id now).email = body.email.getD "" from rfl] at hc
    rw [hc] at this
    simp at this
  · rw [(register_error body sess st now h).1]
    exact hu

/-- A sequence of register calls, modelling repeated POST /api/auth/register
requests (each with its own body, session and clock reading). -/
def runRegisters (ops : List (RegisterBody × Option SessionData × Nat))
    (st : AppState) : AppState :=
  ops.foldl (fun s op => (register op.1 op.2.1 s op.2.2).state) st

/-- C6: registering an email that already has a user row fails with 400 and
creates no user row; `register` preserves pairwise-distinct emails, and so
any sequence of register operations keeps at most one user row per email. -/
theorem C6_email_uniqueness :
    (∀ body sess st now e, body.email = some e →
        (∃ u ∈ st.db.users, u.email = e) →
        (register body sess st now).resp.status = 400 ∧
        (register body sess st now).state.db.users = st.db.users) ∧
    (∀ body sess st now, emailsUnique st.db.users →
        emailsUnique (register body sess st now).state.db.users) ∧
    (∀ ops st, emailsUnique st.db.users →
        emailsUnique (runRegisters ops st).db.users) := by
  refine ⟨?_, ?_, ?_⟩
  · intro body sess st now e hbe hex
    by_cases h : (register body sess st now).resp.status = 201
    · exfalso
      obtain ⟨hall, _⟩ := register_success_db body sess st now h
      obtain ⟨u, hu, hue⟩ := hex
      have := hall u hu
      rw [hbe] at this
      simp [hue] at this
    · obtain ⟨hdb, h400⟩ := register_error body sess st now h
      exact ⟨h400, by rw [hdb]⟩
  · exact register_preserves_emailsUnique
  · intro ops
    induction ops with
    | nil => intro st hu; exact hu
    | cons op rest ih =>
      intro st hu
      exact ih _ (register_preserves_emailsUnique op.1 op.2.1 st op.2.2 hu)

/-- Witness for C6: re-registering `dana@example.com` on the fixture state
fails with 400 and adds no user row. -/
theorem C6_email_uniqueness_witness :
    (register ⟨some "Dup", some "User", some "dana@example.com", some "9",
        some "pw2", some "driver"⟩ none demoState 9).resp.status = 400 ∧
    (register ⟨some "Dup", some "User", some "dana@example.com", some "9",
        some "pw2", some "driver"⟩ none demoState 9).state.db.users = demoState.db.users :=
  C6_email_uniqueness.1
    ⟨some "Dup", some "User", some "dana@example.com", some "9", some "pw2", some "driver"⟩
    none demoState 9 "dana@example.com" rfl ⟨demoDriver, by decide, by decide⟩

/-! ## C7 -/

/-- C7: every login attempt carrying both fields that fails the credential
check gets exactly the same response — 401 with the generic message
`Invalid credentials` — whether the email is unknown or the email exists
with a non-matching password hash; the state and session are untouched.
Two failing runs therefore produce identical responses. -/
theorem C7_login_failure_indistinguishable (body : LoginBody)
    (sess : Option SessionData) (st : AppState) (now : Nat)
    (he : body.email.isSome) (hp : body.password.isSome)
    (hfail : ∀ u ∈ st.db.users, u.email = body.email.getD "" →
        check_password_hash u.password_hash (body.password.getD "") = false) :
    login body sess st now = ⟨⟨401, msg "Invalid credentials"⟩, st, sess⟩ := by
  unfold login
  have h1 : (body.email.isNone || body.password.isNone) = false := by
    rcases hbe : body.email with _ | e
    · rw [hbe] at he
      simp at he
    · rcases hbp : body.password with _ | p
      · rw [hbp] at hp
        simp at hp
      · rfl
  rcases hf : st.db.users.find? (fun u => u.email == body.email.getD "") with _ | u
  · simp [h1, hf]
  · have hmem := List.mem_of_find?_eq_some hf
    have hpe := List.find?_some hf
    have hcheck : check_password_hash u.password_hash (body.password.getD "") = false :=
      hfail u hmem (by simpa using hpe)
    simp [h1, hf, hcheck]

/-- Witness for C7: an unknown email and a known email with a wrong
password produce the same concrete 401 response. -/
theorem C7_login_failure_indistinguishable_witness :
    login ⟨some "ghost@example.com", some "pw"⟩ none demoState 3
      = ⟨⟨401, msg "Invalid credentials"⟩, demoState, none⟩ ∧
    login ⟨some "dana@example.com", some "wrongpw"⟩ none demoState 3
      = ⟨⟨401, msg "Invalid credentials"⟩, demoState, none⟩ :=
  ⟨C7_login_failure_indistinguishable ⟨some "ghost@example.com", some "pw"⟩
      none demoState 3 (by decide) (by decide) (by decide),
   C7_login_failure_indistinguishable ⟨some "dana@example.com", some "wrongpw"⟩
      none demoState 3 (by decide) (by decide) (by decide)⟩

/-! ## C8 -/

/-- Blank out every stored password hash. -/
def scrubHashes (users : List User) : List User :=
  users.map (fun u => { u with password_hash := "" })

/-- `User.to_dict` does not depend on the password hash. -/
theorem user_to_dict_hash_independent (u : User) (h2 : String) :
    User.to_dict { u with password_hash := h2 } = User.to_dict u := rfl

/-- `findUser` over scrubbed users is the scrub of the plain lookup. -/
theorem findUser_scrub (users : List User) (k : Nat) :
    findUser (scrubHashes users) k
      = (findUser users k).map (fun u => { u with password_hash := "" }) :=
  findUser_map users k _ (fun _ => rfl)

/-- `Ride.to_dict` does not depend on any stored password hash. -/
theorem ride_to_dict_scrub (r : Ride) (b : Bool) (users : List User) :
    Ride.to_dict r b (scrubHashes users) = Ride.to_dict r b users := by
  cases b
  · rfl
  · unfold Ride.to_dict
    rw [findUser_scrub]
    rcases hfu : findUser users r.driver_id with _ | d
    · rfl
    · rfl

/-- `RideRequest.to_dict` does not depend on any stored password hash. -/
theorem request_to_dict_scrub (q : RideRequest) (br bd : Bool) (db : DB) :
    RideRequest.to_dict q br bd { db with users := scrubHashes db.users }
      = RideRequest.to_dict q br bd db := by
  unfold RideRequest.to_dict
  rcases hfu : findUser db.users q.rider_id with _ | u <;>
    rcases hfr : findRide db.rides q.ride_id with _ | r <;>
      cases br <;> cases bd <;>
        simp [findUser_scrub, hfu, hfr, ride_to_dict_scrub, user_to_dict_hash_independent]

/-- C8: no representation ever contains the password hash: `User.to_dict`
emits exactly the nine listed camelCase keys (no password key) and is
independent of the `password_hash` column, and the ride and request
representations — driver and rider embeddings included — are likewise
unchanged when every stored hash is blanked out. -/
theorem C8_password_hash_never_serialized :
    (∀ u h2, User.to_dict { u with password_hash := h2 } = User.to_dict u) ∧
    (∀ u : User, ∃ kvs, User.to_dict u = .jobj kvs ∧
        kvs.map Prod.fst = userDictKeys) ∧
    ("passwordHash" ∉ userDictKeys ∧ "password" ∉ userDictKeys ∧
      "password_hash" ∉ userDictKeys) ∧
    (∀ r b users, Ride.to_dict r b (scrubHashes users) = Ride.to_dict r b users) ∧
    (∀ q br bd db, RideRequest.to_dict q br bd { db with users := scrubHashes db.users }
        = RideRequest.to_dict q br bd db) := by
  refine ⟨user_to_dict_hash_independent, ?_, ?_, ride_to_dict_scrub, request_to_dict_scrub⟩
  · intro u
    exact ⟨_, rfl, rfl⟩
  · exact ⟨by decide, by decide, by decide⟩

/-! ## C9 -/

/-- Updating `available_seats` of one ride row preserves every status. -/
theorem map_status_seat_update (l : List Ride) (k : Nat) (d : Int) :
    (l.map (fun r => if r.id == k then
        { r with available_seats := r.available_seats - d } else r)).map Ride.status
      = l.map Ride.status := by
  induction l with
  | nil => rfl
  | cons a l ih =>
    simp only [List.map_cons, ih]
    by_cases h : a.id == k <;> simp [h]

/-- C9: `update_request_status` touches, in the database, only the targeted
request's `status` and — on acceptance — the referenced ride's
`available_seats`; every other field and row is unchanged, every ride's
`status` is preserved (a ride exhausted by acceptance stays `active`), and
no other handler changes any existing ride row (create-ride only appends a
ride whose status is `active`). -/
theorem C9_update_request_frame :
    (∀ rid bs sess st, (update_request_status rid bs sess st).resp.status ≠ 200 →
        (update_request_status rid bs sess st).state.db = st.db) ∧
    (∀ rid bs sess st, (update_request_status rid bs sess st).resp.status = 200 →
      ∃ s status req ride, sess = some s ∧ bs = some status ∧
        findRequest st.db.requests rid = some req ∧
        findRide st.db.rides req.ride_id = some ride ∧
        (update_request_status rid bs sess st).state.db.users = st.db.users ∧
        (update_request_status rid bs sess st).state.db.requests
          = st.db.requests.map (fun q => if q.id == rid then { q with status := status } else q) ∧
        ((update_request_status rid bs sess st).state.db.rides = st.db.rides ∨
         (update_request_status rid bs sess st).state.db.rides
           = st.db.rides.map (fun r => if r.id == ride.id then
               { r with available_seats := r.available_seats - req.seats } else r))) ∧
    (∀ rid bs sess st, (update_request_status rid bs sess st).state.db.rides.map Ride.status
        = st.db.rides.map Ride.status) ∧
    (∀ body sess st now, (register body sess st now).state.db.rides = st.db.rides) ∧
    (∀ body sess st now, (login body sess st now).state.db.rides = st.db.rides) ∧
    (∀ sess st, (get_current_user sess st).state.db.rides = st.db.rides) ∧
    (∀ a b c st now, (search_rides a b c st now).2.db.rides = st.db.rides) ∧
    (∀ body sess st now, (create_ride_request body sess st now).state.db.rides = st.db.rides) ∧
    (∀ body sess st now, ∀ r ∈ (create_ride body sess st now).state.db.rides,
        r ∈ st.db.rides ∨ r.status = "active") := by
  have hsucc : ∀ rid bs sess st,
      (update_request_status rid bs sess st).resp.status = 200 →
      ∃ s status req ride, sess = some s ∧ bs = some status ∧
        findRequest st.db.requests rid = some req ∧
        findRide st.db.rides req.ride_id = some ride ∧
        (update_request_status rid bs sess st).state.db.users = st.db.users ∧
        (update_request_status rid bs sess st).state.db.requests
          = st.db.requests.map (fun q => if q.id == rid then { q with status := status } else q) ∧
        ((update_request_status rid bs sess st).state.db.rides = st.db.rides ∨
         (update_request_status rid bs sess st).state.db.rides
           = st.db.rides.map (fun r => if r.id == ride.id then
               { r with available_seats := r.available_seats - req.seats } else r)) := by
    intro rid bs sess st h
    obtain ⟨s, status, req, ride, hsess, hrole, hbs, hst, hq, hr, hown⟩ :=
      update_request_status_success_inv rid bs sess st h
    subst hsess; subst hbs
    rcases hst with h1 | h1 <;> subst h1
    · refine ⟨s, "accepted", req, ride, rfl, rfl, hq, hr, ?_, ?_, Or.inr ?_⟩ <;>
        rw [update_accept_eq rid s st req ride hrole hq hr hown]
    · refine ⟨s, "declined", req, ride, rfl, rfl, hq, hr, ?_, ?_, Or.inl ?_⟩ <;>
        rw [update_decline_eq rid s st req ride hrole hq hr hown]
  refine ⟨?_, hsucc, ?_, ?_, ?_, ?_, ?_, ?_, ?_⟩
  · intro rid bs sess st h
    rw [(update_request_status_error rid bs sess st h).1]
  · intro rid bs sess st
    by_cases h : (update_request_status rid bs sess st).resp.status = 200
    · obtain ⟨s, status, req, ride, _, _, _, _, _, _, hrides⟩ := hsucc rid bs sess st h
      rcases hrides with h2 | h2
      · rw [h2]
      · rw [h2, map_status_seat_update]
    · rw [(update_request_status_error rid bs sess st h).1]
  · intro body sess st now
    by_cases h : (register body sess st now).resp.status = 201
    · rw [(register_success_db body sess st now h).2]
    · rw [(register_error body sess st now h).1]
  · intro body sess st now
    rw [login_db]
  · intro sess st
    rw [get_current_user_state]
  · intro a b c st now
    rw [search_rides_db]
  · intro body sess st now
    by_cases h : (create_ride_request body sess st now).resp.status = 201
    · obtain ⟨s, _, _, hdb⟩ := create_ride_request_success_db body sess st now h
      rw [hdb]
    · rw [create_ride_request_error body sess st now h]
  · intro body sess st now r hr
    by_cases h : (create_ride body sess st now).resp.status = 201
    · obtain ⟨s, _, _, hdb⟩ := create_ride_success_db body sess st now h
      rw [hdb] at hr
      rcases List.mem_append.mp hr with h2 | h2
      · exact Or.inl h2
      · right
        simp only [List.mem_singleton] at h2
        subst h2
        rfl
    · rw [create_ride_error body sess st now h] at hr
      exact Or.inl hr

/-- Witness for C9: the error conjunct at a missing request (404) and the
success conjunct at the concrete acceptance on the fixture state. -/
theorem C9_update_request_frame_witness :
    (update_request_status 99 (some "accepted") (some ⟨10, "driver"⟩) demoState).state.db
      = demoState.db ∧
    ∃ s status req ride,
      (some ⟨10, "driver"⟩ : Option SessionData) = some s ∧
      (some "accepted" : Option String) = some status ∧
      findRequest demoState.db.requests 5 = some req ∧
      findRide demoState.db.rides req.ride_id = some ride ∧
      (update_request_status 5 (some "accepted") (some ⟨10, "driver"⟩) demoState).state.db.users
        = demoState.db.users ∧
      (update_request_status 5 (some "accepted") (some ⟨10, "driver"⟩) demoState).state.db.requests
        = demoState.db.requests.map (fun q => if q.id == 5 then { q with status := status } else q) ∧
      ((update_request_status 5 (some "accepted") (some ⟨10, "driver"⟩) demoState).state.db.rides
          = demoState.db.rides ∨
        (update_request_status 5 (some "accepted") (some ⟨10, "driver"⟩) demoState).state.db.rides
          = demoState.db.rides.map (fun r => if r.id == ride.id then
              { r with available_seats := r.available_seats - req.seats } else r)) :=
  ⟨C9_update_request_frame.1 99 (some "accepted") (some ⟨10, "driver"⟩) demoState (by decide),
   C9_update_request_frame.2.1 5 (some "accepted") (some ⟨10, "driver"⟩) demoState (by decide)⟩

/-! ## C10 -/

/-- C10: an empty-string origin, destination or date query parameter acts
exactly like an absent one, and the all-empty (or all-absent) search
returns 200 with precisely the `active` rides, newest-first, each rendered
with its embedded driver. -/
theorem C10_search_empty_params :
    (∀ b c st now, search_rides (some "") b c st now = search_rides none b c st now) ∧
    (∀ a c st now, search_rides a (some "") c st now = search_rides a none c st now) ∧
    (∀ a b st now, search_rides a b (some "") st now = search_rides a b none st now) ∧
    (∀ st now, (search_rides none none none st now).1.status = 200 ∧
      ∃ l : List Ride,
        (search_rides none none none st now).1.body
          = .jarr (l.map (fun r => r.to_dict true st.db.users)) ∧
        (∀ r, r ∈ l ↔ r ∈ st.db.rides ∧ r.status = "active") ∧
        l.Sorted newerFirst) := by
  refine ⟨fun b c st now => rfl, fun a c st now => rfl, fun a b st now => rfl, ?_⟩
  intro st now
  refine ⟨rfl, searchQuery "" "" "" st.db.rides, rfl, ?_, ?_⟩
  · intro r
    show r ∈ (st.db.rides.filter (fun r => r.status == "active")).insertionSort newerFirst ↔ _
    rw [List.mem_insertionSort, List.mem_filter]
    simp
  · show ((st.db.rides.filter (fun r => r.status == "active")).insertionSort newerFirst).Sorted newerFirst
    exact List.sorted_insertionSort newerFirst _

end RideShare
